import Mathlib

/-!
Shallow embedding of the SkillSync client-side analysis workflow:
the view state machine, file-validation gate, request error-mapping
layer and score-visualization computation from
`src/frontend/src/App.jsx`, `src/frontend/src/components/UploadForm.jsx`
and the results dashboard.
-/

namespace SkillSync

/-- The user role selected in the Hero section: "recruiter" or "applier". -/
inductive Role
  | recruiter
  | applier
deriving DecidableEq

/-- The top-level view of `App.jsx`: "idle" | "upload" | "loading" | "results". -/
inductive View
  | idle
  | upload
  | loading
  | results
deriving DecidableEq

/-- A candidate file as seen by the Dropzone gate: declared MIME type
(`f.type`), byte size (`f.size`) and display name (`f.name`). -/
structure FileData where
  name : String
  mime : String
  size : Nat
deriving DecidableEq

/-- The success response body consumed by `ResultsDashboard`. -/
structure AnalysisResult where
  match_percentage : ℚ
  matched_skills : List String
  missing_skills : List String
  hire_summary : Option String
  basic_improvements : Option (List String)
deriving DecidableEq

/-- A toast notification: `{ message, type }` in `App.jsx`. -/
structure ToastData where
  message : String
  kind : String
deriving DecidableEq

/-- The combined workflow state: the `view`, `role`, `results`, `toast`
state of `App`, together with the `resumeFile`, `jdFile`, `sizeError`
state of the mounted `UploadForm` (all `none` while the form is not
mounted, since unmounting destroys component state), plus the number of
fetch requests currently in flight. The code has no cancellation: a
reset or a role re-selection does not abort a pending fetch, whose
continuation later runs against whatever the state has become. -/
structure AppState where
  view : View
  role : Option Role
  results : Option AnalysisResult
  toast : Option ToastData
  resumeFile : Option FileData
  jdFile : Option FileData
  sizeError : Option String
  inflight : Nat
deriving DecidableEq

/-- Initial state: `useState("idle")`, all other slots empty. -/
def initialState : AppState :=
  { view := View.idle, role := none, results := none, toast := none,
    resumeFile := none, jdFile := none, sizeError := none, inflight := 0 }

/-- `showToast` in `App.jsx`: stores `{ message, type }`, replacing any
currently displayed toast. -/
def showToast (s : AppState) (message : String) (kind : String) : AppState :=
  { s with toast := some { message := message, kind := kind } }

/-- Message for HTTP 415 in `handleAnalyze`. -/
def MSG_415 : String := "Invalid file type. Please upload PDF files only."

/-- Message for HTTP 422 in `handleAnalyze`. -/
def MSG_422 : String :=
  "Could not read one of the PDFs. Please ensure they contain selectable text."

/-- Generic non-2xx message in `handleAnalyze`. -/
def serverErrorMsg (status : Nat) : String :=
  s!"Server error ({status}). Please try again."

/-- Message shown by the catch-all block of `handleAnalyze`. -/
def TRANSPORT_MSG : String :=
  "Could not reach the server. Make sure the FastAPI backend is running."

/-- The status-code-based fallback of `handleAnalyze`:
415 and 422 have dedicated texts, every other status the generic text. -/
def fallbackMessage (status : Nat) : String :=
  if status = 415 then MSG_415
  else if status = 422 then MSG_422
  else serverErrorMsg status

/-- `errorData.detail || fallback` in `handleAnalyze`: the `detail` field
is used verbatim only when present and truthy (a non-empty string);
a missing field, an unparseable body (the `.catch` yields `{}`) or an
empty-string detail all fall through to the status-based fallback. -/
def errorMessage (status : Nat) (detail : Option String) : String :=
  match detail with
  | some d => if d ≠ "" then d else fallbackMessage status
  | none => fallbackMessage status

/-- Outcome of the `fetch` in `handleAnalyze`, as observed by the client:
a transport error (the promise rejects before any response), a non-2xx
response (`response.ok` false) whose error body yields an optional
`detail` string, or a 2xx response whose body either parses to an
`AnalysisResult` or is malformed (`response.json()` rejects). -/
inductive FetchResult
  | transportError
  | errorResponse (status : Nat) (detail : Option String)
  | successResponse (body : Option AnalysisResult)
deriving DecidableEq

/-- `handleAnalyze` in `App.jsx` as a state transformer: enters `loading`,
then dispatches on the fetch outcome. A non-ok response toasts the mapped
error message and returns to `upload`; a parseable 2xx stores the results
and enters `results`; a transport error or a malformed 2xx body is caught
by the same `catch` block, which toasts the transport message and returns
to `upload`. -/
def handleAnalyze (s : AppState) (fr : FetchResult) : AppState :=
  let s1 := { s with view := View.loading }
  match fr with
  | FetchResult.transportError =>
      { showToast s1 TRANSPORT_MSG "error" with view := View.upload }
  | FetchResult.errorResponse status detail =>
      { showToast s1 (errorMessage status detail) "error" with view := View.upload }
  | FetchResult.successResponse none =>
      { showToast s1 TRANSPORT_MSG "error" with view := View.upload }
  | FetchResult.successResponse (some data) =>
      { s1 with results := some data, view := View.results }

/-- `MAX_FILE_SIZE` in `UploadForm.jsx`: 1 MB in bytes. -/
def MAX_FILE_SIZE : Nat := 1048576

/-- The PDF MIME type checked by the Dropzone gate. -/
def PDF_MIME : String := "application/pdf"

/-- The size-error message passed to `onFileSizeError`. -/
def SIZE_MSG : String :=
  "File is too large. Please upload a standard text-based PDF under 1MB."

/-- `handleFile` in `UploadForm.jsx`, as a function from the candidate
file and the current slot content to the new slot content plus an
optional size-error notification: no file or a non-PDF MIME type is a
silent no-op; a PDF over `MAX_FILE_SIZE` is rejected with the size
message; otherwise the file replaces the slot content. -/
def handleFile (f : Option FileData) (slot : Option FileData) :
    Option FileData × Option String :=
  match f with
  | none => (slot, none)
  | some f =>
      if f.mime ≠ PDF_MIME then (slot, none)
      else if f.size > MAX_FILE_SIZE then (slot, some SIZE_MSG)
      else (some f, none)

/-- `canSubmit` in `UploadForm.jsx`:
`resumeFile && jdFile && !isLoading`, with `isLoading = (view === "loading")`. -/
def canSubmit (s : AppState) : Bool :=
  s.resumeFile.isSome && s.jdFile.isSome && !(s.view == View.loading)

/-- The two independent upload slots. -/
inductive Slot
  | resume
  | jd
deriving DecidableEq

/-- Apply the Dropzone gate to one slot of the workflow state:
the chosen slot is updated by `handleFile`; a size error (if any)
replaces the current `sizeError` banner via `showSizeToast`. The other
slot and the toast are untouched. -/
def applyFileTo (s : AppState) (slot : Slot) (f : Option FileData) : AppState :=
  match slot with
  | Slot.resume =>
      let r := handleFile f s.resumeFile
      { s with resumeFile := r.1,
               sizeError := match r.2 with | some m => some m | none => s.sizeError }
  | Slot.jd =>
      let r := handleFile f s.jdFile
      { s with jdFile := r.1,
               sizeError := match r.2 with | some m => some m | none => s.sizeError }

/-- Leaving the `upload`/`loading` views unmounts `UploadForm`, which
destroys its component state (both file slots and the size banner). -/
def clearIfUnmounted (s : AppState) : AppState :=
  if s.view = View.upload ∨ s.view = View.loading then s
  else { s with resumeFile := none, jdFile := none, sizeError := none }

/-- The events driving the workflow. `submitStart` is the click on the
submit button (guarded by `canSubmit`); `fetchComplete` is the
resolution of the in-flight request started by it. -/
inductive Event
  | selectRole (r : Role)
  | selectFile (slot : Slot) (f : Option FileData)
  | submitStart
  | fetchComplete (fr : FetchResult)
  | reset
  | dismissToast
  | sizeErrorTimeout

/-- One step of the workflow state machine, read off the handlers:
`handleRoleSelect` sets the role and enters `upload` (the Hero role
buttons are never disabled, so this can fire in any view, including
during `loading`); a file selection is effective only while the form is
mounted and not loading (the Dropzone is `disabled` while loading);
`handleSubmit` starts a fetch and enters `loading` only when `canSubmit`;
the continuation of a pending fetch runs unconditionally in `App.jsx` —
it is guarded here only by a request actually being in flight, not by
the current view — and applies `handleAnalyze`'s dispatch (unmounting
the form when it lands in `results`); `handleReset` returns to `idle`
clearing role and results (and the form state by unmount) without
cancelling any pending fetch; toast dismissal and the 5 s size-banner
timer clear their notification. -/
def step (s : AppState) : Event → AppState
  | Event.selectRole r => { s with role := some r, view := View.upload }
  | Event.selectFile slot f =>
      if s.view = View.upload then applyFileTo s slot f else s
  | Event.submitStart =>
      if canSubmit s then
        { s with view := View.loading, inflight := s.inflight + 1 }
      else s
  | Event.fetchComplete fr =>
      if 0 < s.inflight then
        clearIfUnmounted { handleAnalyze s fr with inflight := s.inflight - 1 }
      else s
  | Event.reset =>
      clearIfUnmounted { s with view := View.idle, role := none, results := none }
  | Event.dismissToast => { s with toast := none }
  | Event.sizeErrorTimeout => { s with sizeError := none }

/-- Reachability from the initial state under the event semantics. -/
inductive Reachable : AppState → Prop
  | init : Reachable initialState
  | next (s : AppState) (e : Event) : Reachable s → Reachable (step s e)

/-- Run a list of events from a state. -/
def runEvents (s : AppState) (es : List Event) : AppState :=
  es.foldl step s

/-- The color/label record returned by `scoreColor` in the results
dashboard. -/
structure ScoreColor where
  stroke : String
  text : String
  label : String
deriving DecidableEq

/-- `scoreColor` in the results dashboard: thresholds at 75 and 50. -/
def scoreColor (pct : ℚ) : ScoreColor :=
  if pct ≥ 75 then
    { stroke := "#34d399", text := "text-emerald-500 dark:text-emerald-400",
      label := "Strong Match" }
  else if pct ≥ 50 then
    { stroke := "#f59e0b", text := "text-amber-500 dark:text-amber-400",
      label := "Moderate Match" }
  else
    { stroke := "#f87171", text := "text-red-500 dark:text-red-400",
      label := "Weak Match" }

/-- The qualitative band of the spec's `classify` contract. -/
inductive Band
  | Strong
  | Moderate
  | Weak
deriving DecidableEq

/-- Modelled from the spec: the `classify` contract of §4.4
(pct ≥ 75 → Strong; 50 ≤ pct < 75 → Moderate; pct < 50 → Weak). -/
def classify (pct : ℚ) : Band :=
  if pct ≥ 75 then Band.Strong
  else if pct ≥ 50 then Band.Moderate
  else Band.Weak

/-- The label attached to each band by the spec and by `scoreColor`. -/
def bandLabel : Band → String
  | Band.Strong => "Strong Match"
  | Band.Moderate => "Moderate Match"
  | Band.Weak => "Weak Match"

/-- The cubic ease-out of `CircularScore`: `1 - Math.pow(1 - progress, 3)`. -/
def easeOutCubic (p : ℚ) : ℚ := 1 - (1 - p) ^ 3

/-- The animated sample of `CircularScore` at normalized time `p`:
`eased * score`. -/
def animValue (score p : ℚ) : ℚ := easeOutCubic p * score

/-- The normalized progress of `CircularScore`:
`Math.min((timestamp - start) / duration, 1)`. -/
def progressAt (elapsed duration : ℚ) : ℚ := min (elapsed / duration) 1

/-- Claim C7: for every pct, `scoreColor` carries exactly the label of the
spec's band classification; the band is Strong iff pct ≥ 75, Moderate iff
50 ≤ pct < 75, Weak iff pct < 50; in particular Strong at 75 and 100,
Moderate at 50 and 74.999, Weak at 0 and 49.999. -/
theorem c7_classify_bands (pct : ℚ) :
    (scoreColor pct).label = bandLabel (classify pct) ∧
    (classify pct = Band.Strong ↔ 75 ≤ pct) ∧
    (classify pct = Band.Moderate ↔ 50 ≤ pct ∧ pct < 75) ∧
    (classify pct = Band.Weak ↔ pct < 50) ∧
    classify 75 = Band.Strong ∧ classify 100 = Band.Strong ∧
    classify 50 = Band.Moderate ∧ classify (74999 / 1000) = Band.Moderate ∧
    classify 0 = Band.Weak ∧ classify (49999 / 1000) = Band.Weak := by
  refine ⟨?_, ?_, ?_, ?_, by norm_num [classify], by norm_num [classify],
    by norm_num [classify], by norm_num [classify], by norm_num [classify],
    by norm_num [classify]⟩
  · unfold scoreColor classify bandLabel
    split_ifs <;> rfl
  · unfold classify
    split_ifs with h1 h2 <;> simp_all
  · unfold classify
    split_ifs with h1 h2
    · simp only [reduceCtorEq, false_iff, not_and, not_lt]
      intro _
      linarith
    · simp only [true_iff]
      exact ⟨h2, by linarith⟩
    · simp only [reduceCtorEq, false_iff, not_and, not_lt]
      intro h
      exact absurd h h2
  · unfold classify
    split_ifs with h1 h2
    · simp only [reduceCtorEq, false_iff, not_lt]
      linarith
    · simp only [reduceCtorEq, false_iff, not_lt]
      linarith
    · simp only [true_iff]
      linarith

/-- Claim C9 counterexample: the claim quantifies over every target value,
but for the target -1 the sampled value strictly decreases from 0 (at t=0)
to -1 (at t=1), so the sequence is not monotonically non-decreasing. -/
theorem c9_counterexample :
    animValue (-1) 1 < animValue (-1) 0 ∧ animValue (-1) 0 = 0 := by
  constructor <;> norm_num [animValue, easeOutCubic]

/-- Claim C9 (amended): for every non-negative target, the sequence starts
at 0, each sample at normalized time t equals target × (1 − (1−t)^3), the
samples are monotone non-decreasing in t over [0,1], the value at t = 1 is
exactly the target, and the normalized progress clamps to 1 once the
elapsed time reaches the duration. -/
theorem c9_amended (score t1 t2 elapsed duration : ℚ)
    (hs : 0 ≤ score) (h12 : t1 ≤ t2) (h2 : t2 ≤ 1)
    (hd : 0 < duration) (he : duration ≤ elapsed) :
    animValue score 0 = 0 ∧
    animValue score t1 = score * (1 - (1 - t1) ^ 3) ∧
    animValue score t1 ≤ animValue score t2 ∧
    animValue score 1 = score ∧
    progressAt elapsed duration = 1 := by
  refine ⟨by norm_num [animValue, easeOutCubic],
    by unfold animValue easeOutCubic; ring, ?_,
    by norm_num [animValue, easeOutCubic], ?_⟩
  · unfold animValue easeOutCubic
    have hbase : (1 - t2) ^ 3 ≤ (1 - t1) ^ 3 :=
      pow_le_pow_left₀ (by linarith) (by linarith) 3
    have heased : 1 - (1 - t1) ^ 3 ≤ 1 - (1 - t2) ^ 3 := by linarith
    exact mul_le_mul_of_nonneg_right heased hs
  · unfold progressAt
    have : (1 : ℚ) ≤ elapsed / duration := (one_le_div hd).mpr he
    exact min_eq_right this

/-- Claim C9 witness: the amended theorem at target 82, t from 0 to 1,
elapsed 2200 ms of a 1100 ms duration. -/
theorem c9_witness :
    animValue 82 0 = 0 ∧
    animValue 82 0 = 82 * (1 - (1 - 0) ^ 3) ∧
    animValue 82 0 ≤ animValue 82 1 ∧
    animValue 82 1 = 82 ∧
    progressAt 2200 1100 = 1 :=
  c9_amended 82 0 1 2200 1100 (by norm_num) (by norm_num) (by norm_num)
    (by norm_num) (by norm_num)

/-- Claim C2 counterexample: a 2xx response with an unparseable body is
resolved with the transport-failure toast, which is not how a
ServiceFailure at the same point resolves — the resulting state differs
from the non-2xx resolution, and the message shown is the transport
message, distinct from all documented service-failure texts. -/
theorem c2_counterexample :
    (handleAnalyze initialState (FetchResult.successResponse none)).toast =
      some { message := TRANSPORT_MSG, kind := "error" } ∧
    handleAnalyze initialState (FetchResult.successResponse none) ≠
      handleAnalyze initialState (FetchResult.errorResponse 200 none) ∧
    TRANSPORT_MSG ≠ MSG_415 ∧ TRANSPORT_MSG ≠ MSG_422 ∧
    TRANSPORT_MSG ≠ serverErrorMsg 200 := by
  refine ⟨rfl, ?_, by decide, by decide, by decide⟩
  intro h
  exact absurd (congrArg (fun st => st.toast) h) (by decide)

/-- Claim C2 (amended): a 2xx response whose body cannot be parsed is
resolved exactly as a TransportFailure: the state returns to Upload with
an error notification carrying the transport-failure message, and the
parse failure never propagates as an unhandled fault. -/
theorem c2_amended (s : AppState) :
    handleAnalyze s (FetchResult.successResponse none) =
      handleAnalyze s FetchResult.transportError ∧
    (handleAnalyze s (FetchResult.successResponse none)).view = View.upload ∧
    (handleAnalyze s (FetchResult.successResponse none)).toast =
      some { message := TRANSPORT_MSG, kind := "error" } :=
  ⟨rfl, rfl, rfl⟩

/-- Claim C3 counterexample: for a non-2xx status (500) whose error body
has a `detail` field present but equal to the empty string, the message
shown is the synthesized generic text, not the (empty) detail verbatim. -/
theorem c3_counterexample :
    (handleAnalyze initialState (FetchResult.errorResponse 500 (some ""))).toast =
      some { message := serverErrorMsg 500, kind := "error" } ∧
    serverErrorMsg 500 = "Server error (500). Please try again." ∧
    serverErrorMsg 500 ≠ "" := by
  refine ⟨rfl, by decide, by decide⟩

/-- Claim C3 (amended): for every non-2xx status, the view returns to
Upload and the notification message is the `detail` field verbatim when
present and non-empty; otherwise it is the documented 415 text, the
documented 422 text, or a generic server-error message containing the
status code for every other status. -/
theorem c3_amended (s : AppState) (status : Nat) (d : String) :
    (d ≠ "" →
      (handleAnalyze s (FetchResult.errorResponse status (some d))).toast =
        some { message := d, kind := "error" }) ∧
    ((handleAnalyze s (FetchResult.errorResponse status none)).toast =
      some { message := fallbackMessage status, kind := "error" }) ∧
    fallbackMessage 415 = MSG_415 ∧
    fallbackMessage 422 = MSG_422 ∧
    (status ≠ 415 → status ≠ 422 →
      fallbackMessage status = "Server error (" ++ toString status ++ "). Please try again.") ∧
    (handleAnalyze s (FetchResult.errorResponse status (some d))).view = View.upload ∧
    (handleAnalyze s (FetchResult.errorResponse status none)).view = View.upload := by
  refine ⟨?_, rfl, by decide, ?_, ?_, rfl, rfl⟩
  · intro hd
    simp [handleAnalyze, errorMessage, showToast, hd]
  · simp [fallbackMessage]
  · intro h1 h2
    simp only [fallbackMessage, h1, h2, if_false, serverErrorMsg]
    rfl

/-- Claim C3 witness: a 503 response with a non-empty detail shows it
verbatim, and the generic message for 503 embeds the status code. -/
theorem c3_witness :
    (handleAnalyze initialState
        (FetchResult.errorResponse 503 (some "quota exceeded"))).toast =
      some { message := "quota exceeded", kind := "error" } ∧
    fallbackMessage 503 = "Server error (" ++ toString 503 ++ "). Please try again." :=
  ⟨(c3_amended initialState 503 "quota exceeded").1 (by decide),
   (c3_amended initialState 503 "quota exceeded").2.2.2.2.1 (by decide) (by decide)⟩

/-- Claim C10: a `detail` field present but equal to the empty string
(the falsy string value) is discarded — the message equals the
status-based fallback and the whole resolution equals the one for an
absent detail. -/
theorem c10_falsy_detail (s : AppState) (status : Nat) :
    errorMessage status (some "") = fallbackMessage status ∧
    handleAnalyze s (FetchResult.errorResponse status (some "")) =
      handleAnalyze s (FetchResult.errorResponse status none) := by
  constructor
  · simp [errorMessage]
  · simp [handleAnalyze, errorMessage]

/-- Claim C4: in every state, `canSubmit` is true iff both slots are
occupied and the view is not Loading, and invoking Submit while
`canSubmit` is false leaves the whole state (view and both stored files
included) unchanged. -/
theorem c4_canSubmit_gate (s : AppState) :
    (canSubmit s = true ↔
      s.resumeFile.isSome = true ∧ s.jdFile.isSome = true ∧
        s.view ≠ View.loading) ∧
    (canSubmit s = false → step s Event.submitStart = s) := by
  constructor
  · simp [canSubmit, and_assoc]
  · intro h
    simp [step, h]

/-- Claim C4 witness: in the initial state both slots are empty, so
`canSubmit` is false and Submit is a no-op. -/
theorem c4_witness :
    step initialState Event.submitStart = initialState ∧
    canSubmit initialState = false :=
  ⟨(c4_canSubmit_gate initialState).2 rfl, rfl⟩

/-- Claim C5: for every candidate file of PDF MIME type, a size above
1,048,576 bytes is rejected leaving the slot unchanged with the
size-limit notification (whose text states the 1MB limit), while a size
at or below 1,048,576 is accepted and replaces the prior slot content;
selecting a file into one slot never changes the other slot. -/
theorem c5_size_gate (f : FileData) (prior : Option FileData) (s : AppState)
    (hmime : f.mime = PDF_MIME) :
    (MAX_FILE_SIZE < f.size →
      handleFile (some f) prior = (prior, some SIZE_MSG)) ∧
    (f.size ≤ MAX_FILE_SIZE → handleFile (some f) prior = (some f, none)) ∧
    (∃ a b, SIZE_MSG = a ++ "1MB" ++ b) ∧
    (step s (Event.selectFile Slot.resume (some f))).jdFile = s.jdFile ∧
    (step s (Event.selectFile Slot.jd (some f))).resumeFile = s.resumeFile := by
  refine ⟨?_, ?_,
    ⟨"File is too large. Please upload a standard text-based PDF under ", ".",
      by decide⟩, ?_, ?_⟩
  · intro h
    simp [handleFile, hmime, h]
  · intro h
    simp [handleFile, hmime, not_lt.mpr h]
  · change (if s.view = View.upload then
        applyFileTo s Slot.resume (some f) else s).jdFile = s.jdFile
    split
    · simp [applyFileTo]
    · rfl
  · change (if s.view = View.upload then
        applyFileTo s Slot.jd (some f) else s).resumeFile = s.resumeFile
    split
    · simp [applyFileTo]
    · rfl

/-- A demo oversized PDF (2 MiB). -/
def bigPdf : FileData :=
  { name := "big.pdf", mime := "application/pdf", size := 2097152 }

/-- A demo resume PDF under the limit. -/
def demoResume : FileData :=
  { name := "resume.pdf", mime := "application/pdf", size := 524288 }

/-- A demo job-description PDF under the limit. -/
def demoJd : FileData :=
  { name := "jd.pdf", mime := "application/pdf", size := 100000 }

/-- Claim C5 witness: the 2 MiB PDF is rejected with the size message and
the slot stays empty; the small PDF is accepted and replaces the prior
slot content. -/
theorem c5_witness :
    handleFile (some bigPdf) none = (none, some SIZE_MSG) ∧
    handleFile (some demoResume) (some bigPdf) = (some demoResume, none) :=
  ⟨(c5_size_gate bigPdf none initialState rfl).1 (by decide),
   (c5_size_gate demoResume (some bigPdf) initialState rfl).2.1 (by decide)⟩

/-- Claim C6: a candidate file whose declared MIME type is not exactly
the PDF type is a silent no-op: no slot content changes, no notification
of any kind is emitted, and the whole workflow state is unchanged. -/
theorem c6_silent_drop (f : FileData) (s : AppState) (slot : Slot)
    (hmime : f.mime ≠ PDF_MIME) :
    (∀ prior, handleFile (some f) prior = (prior, none)) ∧
    step s (Event.selectFile slot (some f)) = s := by
  constructor
  · intro prior
    simp [handleFile, hmime]
  · change (if s.view = View.upload then applyFileTo s slot (some f) else s) = s
    split
    · cases slot <;> simp [applyFileTo, handleFile, hmime]
    · rfl

/-- A demo non-PDF file. -/
def txtFile : FileData :=
  { name := "notes.txt", mime := "text/plain", size := 10 }

/-- Claim C6 witness: a text/plain file is dropped silently in the
upload view. -/
theorem c6_witness :
    handleFile (some txtFile) none = (none, none) ∧
    step { initialState with view := View.upload }
        (Event.selectFile Slot.resume (some txtFile)) =
      { initialState with view := View.upload } :=
  ⟨(c6_silent_drop txtFile { initialState with view := View.upload }
      Slot.resume (by decide)).1 none,
   (c6_silent_drop txtFile { initialState with view := View.upload }
      Slot.resume (by decide)).2⟩

/-- Claim C8: from every state whose view is Upload, Loading or Results,
the Reset event yields view Idle with role, both file slots and the
stored analysis result all null. -/
theorem c8_reset_roundtrip (s : AppState)
    (_h : s.view = View.upload ∨ s.view = View.loading ∨ s.view = View.results) :
    (step s Event.reset).view = View.idle ∧
    (step s Event.reset).role = none ∧
    (step s Event.reset).resumeFile = none ∧
    (step s Event.reset).jdFile = none ∧
    (step s Event.reset).results = none := by
  simp [step, clearIfUnmounted]

/-- Claim C8 witness: Reset after selecting the recruiter role (view
Upload) lands in the all-null Idle state. -/
theorem c8_witness :
    (step (step initialState (Event.selectRole Role.recruiter)) Event.reset).view =
      View.idle ∧
    (step (step initialState (Event.selectRole Role.recruiter)) Event.reset).role =
      none ∧
    (step (step initialState (Event.selectRole Role.recruiter)) Event.reset).resumeFile =
      none ∧
    (step (step initialState (Event.selectRole Role.recruiter)) Event.reset).jdFile =
      none ∧
    (step (step initialState (Event.selectRole Role.recruiter)) Event.reset).results =
      none :=
  c8_reset_roundtrip (step initialState (Event.selectRole Role.recruiter))
    (Or.inl rfl)

/-- The inductive invariant of the workflow: the Results view implies a
stored analysis result. (The role is not part of the invariant: a
pending fetch survives a reset, and its 2xx continuation can land in
Results after the role was nulled.) -/
def Inv (s : AppState) : Prop :=
  s.view = View.results → s.results.isSome = true

theorem inv_initial : Inv initialState := by
  intro hv
  exact absurd hv (by decide)

theorem applyFileTo_view (s : AppState) (slot : Slot) (f : Option FileData) :
    (applyFileTo s slot f).view = s.view := by
  cases slot <;> rfl

theorem inv_preserved (s : AppState) (e : Event) (h : Inv s) : Inv (step s e) := by
  cases e with
  | selectRole r =>
      intro hv
      simp [step] at hv
  | selectFile slot f =>
      change Inv (if s.view = View.upload then applyFileTo s slot f else s)
      split
      · next hview =>
          intro hv
          rw [applyFileTo_view, hview] at hv
          exact absurd hv (by decide)
      · exact h
  | submitStart =>
      change Inv (if canSubmit s = true then
        { s with view := View.loading, inflight := s.inflight + 1 } else s)
      split
      · intro hv
        simp at hv
      · exact h
  | fetchComplete fr =>
      change Inv (if 0 < s.inflight then
        clearIfUnmounted { handleAnalyze s fr with inflight := s.inflight - 1 }
        else s)
      split
      · cases fr with
        | transportError =>
            intro hv
            simp [handleAnalyze, showToast, clearIfUnmounted] at hv
        | errorResponse status detail =>
            intro hv
            simp [handleAnalyze, showToast, clearIfUnmounted] at hv
        | successResponse body =>
            cases body with
            | none =>
                intro hv
                simp [handleAnalyze, showToast, clearIfUnmounted] at hv
            | some data =>
                intro _
                simp [handleAnalyze, clearIfUnmounted]
      · exact h
  | reset =>
      intro hv
      simp [step, clearIfUnmounted] at hv
  | dismissToast => exact h
  | sizeErrorTimeout => exact h

theorem inv_reachable (s : AppState) (h : Reachable s) : Inv s := by
  induction h with
  | init => exact inv_initial
  | next s e _ ih => exact inv_preserved s e ih

/-- The analysis result of end-to-end scenario 1. -/
def demoResult : AnalysisResult :=
  { match_percentage := 82, matched_skills := ["Go", "SQL"],
    missing_skills := ["Rust"], hire_summary := some "Strong fit",
    basic_improvements := none }

theorem runEvents_reachable (es : List Event) (s : AppState)
    (h : Reachable s) : Reachable (runEvents s es) := by
  induction es generalizing s with
  | nil => exact h
  | cons e es ih => exact ih (step s e) (Reachable.next s e h)

/-- The race the handlers permit: submit a valid pair of files, click a
Hero role button during loading (they are never disabled, so the view
returns to upload and the Back button is re-enabled), reset, and only
then have the pending fetch resolve 2xx with a parseable body. -/
def raceTrace : List Event :=
  [Event.selectRole Role.recruiter,
   Event.selectFile Slot.resume (some demoResume),
   Event.selectFile Slot.jd (some demoJd),
   Event.submitStart,
   Event.selectRole Role.applier,
   Event.reset,
   Event.fetchComplete (FetchResult.successResponse (some demoResult))]

/-- Claim C1 counterexample: the race trace reaches a state whose view is
Results while the stored Role is null — the fetch continuation runs
regardless of the current view, so a reset during an in-flight request
followed by a 2xx resolution falsifies the role half of the claim. -/
theorem c1_counterexample :
    Reachable (runEvents initialState raceTrace) ∧
    (runEvents initialState raceTrace).view = View.results ∧
    (runEvents initialState raceTrace).role = none :=
  ⟨runEvents_reachable raceTrace initialState Reachable.init,
   by decide, by decide⟩

/-- Claim C1 (amended): in every reachable state whose view is Results,
the stored AnalysisResult is non-null; in particular no successful
submission (a 2xx response with a parseable body) can leave the machine
in Results with a null result. The stored Role, however, can be null in
Results, via a reset during an in-flight request. -/
theorem c1_results_invariant (s : AppState) (h : Reachable s)
    (hv : s.view = View.results) :
    s.results.isSome = true :=
  inv_reachable s h hv

/-- A demo session: select the recruiter role, upload both PDFs, submit,
and receive a parseable 2xx response. -/
def demoTrace : List Event :=
  [Event.selectRole Role.recruiter,
   Event.selectFile Slot.resume (some demoResume),
   Event.selectFile Slot.jd (some demoJd),
   Event.submitStart,
   Event.fetchComplete (FetchResult.successResponse (some demoResult))]

/-- Claim C1 witness: the demo session ends in the Results view with a
non-null result. -/
theorem c1_witness :
    (runEvents initialState demoTrace).results.isSome = true :=
  c1_results_invariant (runEvents initialState demoTrace)
    (runEvents_reachable demoTrace initialState Reachable.init) (by decide)

end SkillSync
